import Mathlib

/-!
Shallow embedding of the plexi audit verification pipeline
(cloudflare/plexi: plexi_core/src/lib.rs, plexi_core/src/namespaces.rs,
plexi_cli/src/cmd.rs), together with theorems settling the claims about it.

Machine integers (u8, u32, u64) are modelled as `Nat`; arithmetic that can
underflow or overflow in Rust is made explicit with `Option`-valued helpers.
Fallible Rust code (`Result`) is modelled with `Except`; `panic!`/`expect`
sites are modelled by a distinguished outcome constructor.
-/

/-- Models `Ciphersuite` from plexi_core/src/lib.rs: two known numeric codes
plus an `Unknown(code)` catch-all carrying the unrecognized numeric payload. -/
inductive Ciphersuite
  | protobufEd25519
  | bincodeEd25519
  | unknown (code : Nat)
deriving DecidableEq, Repr

/-- Models `impl From<Ciphersuite> for u32` (lib.rs lines 56-64). -/
def Ciphersuite.toU32 : Ciphersuite → Nat
  | .protobufEd25519 => 1
  | .bincodeEd25519 => 2
  | .unknown u => u

/-- Models `impl From<u32> for Ciphersuite` (lib.rs lines 66-74). -/
def Ciphersuite.fromU32 (u : Nat) : Ciphersuite :=
  match u with
  | 1 => .protobufEd25519
  | 2 => .bincodeEd25519
  | _ => .unknown u

/-- Models `PlexiError` from plexi_core/src/lib.rs lines 32-43. -/
inductive PlexiError
  | badParameter (field : String)
  | missingParameter (field : String)
  | serialization
  | invalidRoot
deriving DecidableEq, Repr

/-- Models `Epoch(u64)` from plexi_core/src/lib.rs line 130. -/
structure Epoch where
  val : Nat
deriving DecidableEq, Repr

/-- Rust u64 subtraction `a - b` as used by the `Sub` impls for `Epoch`:
it is unchecked, so an underflowing subtraction (b > a) has no defined
result (panic in debug builds, wrap-around in release builds); `none`
marks that undefined case. -/
def u64Sub (a b : Nat) : Option Nat :=
  if b ≤ a then some (a - b) else none

/-- Rust u64 addition `a + b` as used by the `Add` impls for `Epoch`:
unchecked, so a result at or above 2^64 has no defined value (`none`). -/
def u64Add (a b : Nat) : Option Nat :=
  if a + b < 18446744073709551616 then some (a + b) else none

/-- Models `impl Sub<u64> for Epoch` (lib.rs lines 210-216):
`Epoch(self.0 - rhs)` with unchecked u64 subtraction. -/
def Epoch.sub (self : Epoch) (rhs : Nat) : Option Epoch :=
  (u64Sub self.val rhs).map Epoch.mk

/-- Models `impl Add<u64> for Epoch` (lib.rs lines 202-208):
`Epoch(self.0 + rhs)` with unchecked u64 addition. -/
def Epoch.add (self : Epoch) (rhs : Nat) : Option Epoch :=
  (u64Add self.val rhs).map Epoch.mk

/-- Models `NamespaceStatus` from plexi_core/src/namespaces.rs lines 244-250. -/
inductive NamespaceStatus
  | online
  | initialization
  | disabled
deriving DecidableEq, Repr

/-- Models `NamespaceInfo` from plexi_core/src/namespaces.rs lines 96-109.
`last_verified_epoch`, `reports_uri` and `audits_uri` are carried for
faithfulness but are not consulted by any operation embedded here. -/
structure NamespaceInfo where
  name : String
  log_directory : Option String
  root : Option String
  last_verified_epoch : Option Epoch
  status : NamespaceStatus
  reports_uri : String
  audits_uri : String
  signature_version : Ciphersuite
  ciphersuite : Ciphersuite
deriving DecidableEq, Repr

/-- Models `NamespaceInfo::is_first_epoch` (namespaces.rs lines 173-186). -/
def NamespaceInfo.is_first_epoch (self : NamespaceInfo) (message_root : String) :
    Except PlexiError Bool :=
  match self.root with
  | none => .ok (decide (self.status = NamespaceStatus.initialization))
  | some root =>
    if root = message_root then
      .ok true
    else if self.status ≠ NamespaceStatus.initialization then
      .ok false
    else
      .error PlexiError.invalidRoot

/-- Models `VerificationStatus` from plexi_cli/src/cmd.rs lines 105-109. -/
inductive VerificationStatus
  | success
  | disabled
  | failed (reason : String)
deriving DecidableEq, Repr

/-- Models `impl fmt::Display for VerificationStatus` (cmd.rs lines 111-120). -/
def VerificationStatus.display : VerificationStatus → String
  | .success => "success"
  | .disabled => "-"
  | .failed err => "failed - " ++ err

/-- True exactly on the `failed` constructor. -/
def VerificationStatus.isFailed : VerificationStatus → Bool
  | .failed _ => true
  | _ => false

/-- Models the `!long` (short-form) branch of `format_audit_response`
(cmd.rs lines 128-133): a match on the pair
(signature status, proof status) choosing which status string to print. -/
def format_audit_response_short (signature_verification_status : VerificationStatus)
    (proof_verification_status : VerificationStatus) : String :=
  match signature_verification_status, proof_verification_status with
  | s, .disabled => s.display
  | .failed r, _ => (VerificationStatus.failed r).display
  | _, p => p.display

/-- Value of one hex digit character, as accepted by `hex::decode`
(digits, lower- and upper-case letters a-f); `none` on any other
character. -/
def hexDigitVal (c : Char) : Option Nat :=
  if 48 ≤ c.toNat ∧ c.toNat ≤ 57 then some (c.toNat - 48)
  else if 97 ≤ c.toNat ∧ c.toNat ≤ 102 then some (c.toNat - 87)
  else if 65 ≤ c.toNat ∧ c.toNat ≤ 70 then some (c.toNat - 55)
  else none

/-- Models `hex::decode` on a character list: fails on odd length or on a
non-hex character, otherwise pairs characters into bytes. -/
def hexDecodeChars : List Char → Option (List Nat)
  | [] => some []
  | [_] => none
  | c1 :: c2 :: rest => do
    let h ← hexDigitVal c1
    let l ← hexDigitVal c2
    let tail ← hexDecodeChars rest
    pure ((h * 16 + l) :: tail)

/-- Models `hex::decode` on a string. -/
def hexDecode (s : String) : Option (List Nat) :=
  hexDecodeChars s.data

/-- Lower-case hex character for a value below 16, as emitted by
`hex::encode`. -/
def hexDigitChar (n : Nat) : Char :=
  if n < 10 then Char.ofNat (48 + n) else Char.ofNat (87 + n)

/-- Models `hex::encode` of one byte: two lower-case hex characters. -/
def hexEncodeByte (b : Nat) : List Char :=
  [hexDigitChar (b / 16 % 16), hexDigitChar (b % 16)]

/-- Models `hex::encode` of a byte vector. -/
def hexEncode (bs : List Nat) : String :=
  ⟨(bs.map hexEncodeByte).flatten⟩

/-- Models Rust `str::parse::<u64>`: an optional leading plus sign followed
by at least one ASCII digit, rejecting values at or above 2^64. -/
def parseU64 (s : String) : Option Nat :=
  let chars := match s.data with
    | c :: rest => if c = Char.ofNat 43 then rest else c :: rest
    | [] => []
  if chars = [] then none
  else if chars.all (fun c => 48 ≤ c.toNat ∧ c.toNat ≤ 57) then
    let v := chars.foldl (fun acc c => acc * 10 + (c.toNat - 48)) 0
    if v < 18446744073709551616 then some v else none
  else none

/-- Models Rust `str::split` with a single-character pattern: the list of
(possibly empty) chunks between occurrences of the separator. -/
def splitOnChar (sep : Char) : List Char → List (List Char)
  | [] => [[]]
  | c :: rest =>
    match splitOnChar sep rest with
    | h :: t => if c = sep then [] :: h :: t else (c :: h) :: t
    | [] => if c = sep then [[], []] else [[c]]

/-- Models `SignatureResponse` from plexi_core/src/lib.rs lines 392-404.
The Rust `namespace` field is called `nspace` because `namespace` is a
Lean keyword. -/
structure SignatureResponse where
  version : Ciphersuite
  ciphersuite : Ciphersuite
  nspace : String
  timestamp : Nat
  epoch : Epoch
  digest : List Nat
  signature : List Nat
  key_id : Option Nat
  serialized_message : Option (List Nat)
deriving DecidableEq, Repr

/-- Models `TempSignatureResponse` from plexi_core/src/lib.rs lines 606-620:
the intermediate wire record with both optional ciphersuite fields. Its
`digest` and `signature` fields are byte vectors (serde transports them
hex-encoded), while `serialized_message` is carried as a hex string. -/
structure TempSignatureResponse where
  version : Option Ciphersuite
  ciphersuite : Option Ciphersuite
  nspace : String
  timestamp : Nat
  epoch : Epoch
  digest : List Nat
  signature : List Nat
  key_id : Option Nat
  serialized_message : Option String
deriving DecidableEq, Repr

/-- Models `impl Serialize for SignatureResponse` (lib.rs lines 622-641):
builds the wire record with `ciphersuite: Some(self.ciphersuite)` and
`version: Some(self.ciphersuite)` and hex-encodes `serialized_message`. -/
def SignatureResponse.serialize (self : SignatureResponse) : TempSignatureResponse :=
  { version := some self.ciphersuite
    ciphersuite := some self.ciphersuite
    nspace := self.nspace
    timestamp := self.timestamp
    epoch := self.epoch
    digest := self.digest
    signature := self.signature
    key_id := self.key_id
    serialized_message := self.serialized_message.map hexEncode }

/-- Tail of `deserialize_signature_response` after the suite merge: decode
the optional hex `serialized_message` (error when it is not valid hex) and
build the response with the resolved suite value mirrored into both the
`version` and `ciphersuite` fields (lib.rs lines 667-682). -/
def buildSignatureResponse (temp : TempSignatureResponse)
    (suite_value : Ciphersuite) : Except String SignatureResponse :=
  match temp.serialized_message with
  | none =>
    .ok { version := suite_value, ciphersuite := suite_value,
          nspace := temp.nspace, timestamp := temp.timestamp,
          epoch := temp.epoch, digest := temp.digest,
          signature := temp.signature, key_id := temp.key_id,
          serialized_message := none }
  | some s =>
    match hexDecode s with
    | none => .error "serialized_message should be hex encoded"
    | some sm =>
      .ok { version := suite_value, ciphersuite := suite_value,
            nspace := temp.nspace, timestamp := temp.timestamp,
            epoch := temp.epoch, digest := temp.digest,
            signature := temp.signature, key_id := temp.key_id,
            serialized_message := some sm }

/-- Models `deserialize_signature_response` (lib.rs lines 653-683): resolves
the two optional wire fields by preferring `version` and falling back to
`ciphersuite`, and errors when both are absent. -/
def deserialize_signature_response (temp : TempSignatureResponse) :
    Except String SignatureResponse :=
  match temp.version, temp.ciphersuite with
  | some v, _ => buildSignatureResponse temp v
  | none, some c => buildSignatureResponse temp c
  | none, none => .error "Either version or ciphersuite must be provided"

/-- Models `SIGNATURE_VERSIONS` from plexi_core/src/lib.rs lines 29-30: the
fixed allow-list of signable ciphersuites. -/
def SIGNATURE_VERSIONS : List Ciphersuite :=
  [Ciphersuite.protobufEd25519, Ciphersuite.bincodeEd25519]

/-- Models `SignatureMessage` from plexi_core/src/lib.rs lines 237-244.
The Rust `namespace` field is called `nspace` because `namespace` is a
Lean keyword. -/
structure SignatureMessage where
  ciphersuite : Ciphersuite
  nspace : String
  timestamp : Nat
  epoch : Epoch
  digest : List Nat
deriving DecidableEq, Repr

/-- Models `SignatureMessage::new` (lib.rs lines 246-264): rejects a
ciphersuite outside `SIGNATURE_VERSIONS` with `BadParameter("version")`,
otherwise stores the given fields. -/
def SignatureMessage.new (ciphersuite : Ciphersuite) (nspace : String)
    (timestamp : Nat) (epoch : Epoch) (digest : List Nat) :
    Except PlexiError SignatureMessage :=
  if ciphersuite ∈ SIGNATURE_VERSIONS then
    .ok { ciphersuite, nspace, timestamp, epoch, digest }
  else
    .error (PlexiError.badParameter "version")

/-- Models `impl From<&SignatureResponse> for SignatureMessage`
(lib.rs lines 328-338): drops the signature, copying the response's
`ciphersuite` field (not `version`) into the message. -/
def SignatureMessage.ofResponse (val : SignatureResponse) : SignatureMessage :=
  { ciphersuite := val.ciphersuite
    nspace := val.nspace
    timestamp := val.timestamp
    epoch := val.epoch
    digest := val.digest }

/-- Fixed-width little-endian byte encoding helper used by the two
spec-modelled encoders below. -/
def leBytes : Nat → Nat → List Nat
  | 0, _ => []
  | w + 1, n => n % 256 :: leBytes w (n / 256)

/-- Length-prefixed byte-string helper used by the two spec-modelled
encoders below. -/
def lenPrefixed (bs : List Nat) : List Nat :=
  leBytes 8 bs.length ++ bs

/-- Modelled from the spec: `SignatureMessage::to_vec_proto` delegates to a
protobuf encoder generated at build time from src/proto/specs/types.proto,
which is not among the provided sources. Per spec section 4.2 it is a pure,
deterministic, infallible encoding of the tuple in the fixed field order
(ciphersuite, namespace, timestamp, epoch, digest). -/
def toVecProto (m : SignatureMessage) : List Nat :=
  leBytes 4 m.ciphersuite.toU32 ++ lenPrefixed (m.nspace.data.map Char.toNat) ++
    leBytes 8 m.timestamp ++ leBytes 8 m.epoch.val ++ lenPrefixed m.digest

/-- Modelled from the spec: `SignatureMessage::to_vec_bincode` delegates to
the external bincode crate (legacy configuration), not among the provided
sources. Per spec section 4.2 it is a pure, deterministic, legacy
fixed-width binary layout of the same tuple. -/
def toVecBincode (m : SignatureMessage) : List Nat :=
  leBytes 4 m.ciphersuite.toU32 ++ lenPrefixed (m.nspace.data.map Char.toNat) ++
    leBytes 8 m.timestamp ++ leBytes 8 m.epoch.val ++ lenPrefixed m.digest ++ [0]

/-- Models `SignatureMessage::to_vec` (lib.rs lines 306-313): dispatch on the
ciphersuite; the bincode arm exists only when the `bincode` cargo feature
is enabled (the `bincodeEnabled` argument models `cfg!(feature = ...)`),
and any other ciphersuite is a `Serialization` error. -/
def SignatureMessage.to_vec (bincodeEnabled : Bool) (self : SignatureMessage) :
    Except PlexiError (List Nat) :=
  match self.ciphersuite with
  | .protobufEd25519 => .ok (toVecProto self)
  | .bincodeEd25519 =>
    if bincodeEnabled then .ok (toVecBincode self) else .error PlexiError.serialization
  | .unknown _ => .error PlexiError.serialization

/-- Models `SignatureResponse::signature` (lib.rs lines 470-475): the stored
byte vector is converted to a fixed 64-byte array with
`.expect("signature bytes have a known length")`; `none` marks the panic
taken when the stored vector does not have the Ed25519 signature length. -/
def SignatureResponse.signatureBytes (self : SignatureResponse) : Option (List Nat) :=
  if self.signature.length = 64 then some self.signature else none

/-- Models `ed25519_dalek::Signature::from_slice`, which fails exactly when
the slice does not have the Ed25519 signature length. -/
def signatureFromSlice (bs : List Nat) : Option (List Nat) :=
  if bs.length = 64 then some bs else none

/-- Abstract interface to the external ed25519_dalek point-decompression and
strict-verification primitives, which are cryptographic code outside this
repository: `parseVerifyingKey` tells whether `VerifyingKey::from_bytes`
succeeds on the given 32 key bytes, and `verifyStrict` is the verdict of
`verify_strict` for (key bytes, message bytes, signature bytes). -/
structure Ed25519Backend where
  parseVerifyingKey : List Nat → Bool
  verifyStrict : List Nat → List Nat → List Nat → Bool

/-- Outcome of `SignatureResponse::verify`: a typed error (`err`), success,
or a Rust panic (`panicked`), which is not a typed error. -/
inductive VerifyOutcome
  | ok
  | err (msg : String)
  | panicked (msg : String)
deriving DecidableEq, Repr

/-- Tail of `SignatureResponse::verify` after the version check
(lib.rs lines 500-520): serialize the downgraded message, length-check and
parse the verifying key, convert the stored signature (the panic site), and
run strict verification. -/
def verifyAfterVersionCheck (backend : Ed25519Backend) (bincodeEnabled : Bool)
    (self : SignatureResponse) (verifying_key : List Nat) : VerifyOutcome :=
  match (SignatureMessage.ofResponse self).to_vec bincodeEnabled with
  | .error _ => .err "cannot serialize message"
  | .ok message =>
    if verifying_key.length ≠ 32 then
      .err "verifying_key should have length 32"
    else if !backend.parseVerifyingKey verifying_key then
      .err "Cannot parse the provided verifying_key."
    else
      match self.signatureBytes with
      | none => .panicked "signature bytes have a known length"
      | some sig64 =>
        match signatureFromSlice sig64 with
        | none => .err "Cannot construct an Ed25519 signature."
        | some signature =>
          if backend.verifyStrict verifying_key message signature then .ok
          else .err "signature verification failure"

/-- Models `SignatureResponse::verify` (lib.rs lines 485-520): version
dispatch (bincode is rejected when the feature is off, unknown versions are
rejected), then the shared verification tail. -/
def SignatureResponse.verify (backend : Ed25519Backend) (bincodeEnabled : Bool)
    (self : SignatureResponse) (verifying_key : List Nat) : VerifyOutcome :=
  match self.version with
  | .bincodeEd25519 =>
    if !bincodeEnabled then .err "Verification is not supported for bincode."
    else verifyAfterVersionCheck backend bincodeEnabled self verifying_key
  | .protobufEd25519 => verifyAfterVersionCheck backend bincodeEnabled self verifying_key
  | .unknown _ => .err "Verification is not supported for the given version."

/-- Models akd `AuditBlobName` as constructed in cmd.rs lines 384-388:
the key identifying one append-only proof blob. -/
structure AuditBlobName where
  epoch : Nat
  previous_hash : List Nat
  current_hash : List Nat
deriving DecidableEq, Repr

/-- Models the `Vec<u8> -> [u8; 32]` conversion `digest().try_into()` used at
cmd.rs lines 366 and 375: fails exactly when the digest does not have the
32-byte hash length. -/
def tryIntoHash (digest : List Nat) : Option (List Nat) :=
  if digest.length = 32 then some digest else none

/-- External collaborator responses consumed by the chain walk in `audit`
(cmd.rs): the namespace record, the per-epoch signature fetch, the proof
blob fetch (with `none` for not-found), and the external append-only
verification oracle `auditor::verify_raw_proof`. Transport-level fetch
errors are outside this model. -/
structure AuditEnv where
  namespaceInfo : Option NamespaceInfo
  signatureAt : Nat → Option SignatureResponse
  proofAt : AuditBlobName → Option (List Nat)
  verifyRawProof : AuditBlobName → List Nat → Except String Unit

/-- Result of parsing a namespace root string in `audit` (cmd.rs lines
317-330): a parsed (epoch, digest) pair, the locally recovered wrong-shape
case (`root_parts.len() != 2`), or a hard error propagated with `?` out of
the whole audit (a non-numeric epoch part or a non-hex digest part). -/
inductive RootParse
  | ok (root_epoch : Epoch) (root_digest : List Nat)
  | invalidFormat
  | hardError (msg : String)
deriving DecidableEq, Repr

/-- Models the root-parsing block of `audit` (cmd.rs lines 317-330): split on
the slash, reject a part count other than two, then parse the epoch with
`Epoch::from_str` and the digest with `hex::decode`, both propagated as
hard errors by `?`. Hard errors carry a tag naming the failing operation. -/
def parseRoot (root : String) : RootParse :=
  match splitOnChar '/' root.data with
  | [p0, p1] =>
    match parseU64 ⟨p0⟩ with
    | none => .hardError "epoch parse error"
    | some e =>
      match hexDecodeChars p1 with
      | none => .hardError "root digest hex decode error"
      | some d => .ok ⟨e⟩ d
  | _ => .invalidFormat

/-- Outcome of the audit chain walk: a report carrying the
(signature status, proof status) pair handed to `format_audit_response`,
a hard error aborting the audit, or a Rust panic. -/
inductive AuditResult
  | report (signature_status : VerificationStatus) (proof_status : VerificationStatus)
  | hardError (msg : String)
  | panicked (msg : String)
deriving DecidableEq, Repr

/-- Models the epoch-chain portion of `audit` (cmd.rs lines 288-419), the
code that runs after signature verification has succeeded: each
`return format_audit_response(long, &signature, s, p)` is represented by
`.report s p` (the status pair given to the formatter), `?`-propagated
errors by `.hardError`, and the `.expect` on the predecessor fetch and the
unchecked `Epoch - 1` subtraction by `.panicked`. -/
def auditChain (env : AuditEnv) (nspace : String) (signature : SignatureResponse) :
    AuditResult :=
  match env.namespaceInfo with
  | none => .report .success (.failed ("namespace " ++ nspace ++ " does not exist"))
  | some namespace_info =>
    match namespace_info.log_directory with
    | none => .report .success .disabled
    | some _log_directory =>
      match namespace_info.root with
      | none =>
        .report .success (.failed ("namespace " ++ nspace ++ " does not have a root"))
      | some root =>
        match parseRoot root with
        | .invalidFormat =>
          .report .success (.failed ("namespace " ++ nspace ++ " has an invalid root"))
        | .hardError msg => .hardError msg
        | .ok root_epoch root_digest =>
          if signature.epoch.val < root_epoch.val then
            .report .success (.failed "epoch cannot be before root")
          else if signature.epoch.val = root_epoch.val then
            if signature.digest = root_digest then
              .report .success .success
            else
              .report .success
                (.failed "epoch is at root height but does not match root digest")
          else
            match signature.epoch.sub 1 with
            | none => .panicked "attempt to subtract with overflow"
            | some prev_epoch =>
              match env.signatureAt prev_epoch.val with
              | none =>
                .panicked "Epoch is not the root, there should be a previous signature"
              | some previous_signature =>
                match tryIntoHash signature.digest with
                | none => .report .success (.failed "digest length invalid")
                | some current_hash =>
                  match tryIntoHash previous_signature.digest with
                  | none => .report .success (.failed "digest length invalid")
                  | some previous_hash =>
                    let blob : AuditBlobName :=
                      { epoch := signature.epoch.val, previous_hash, current_hash }
                    match env.proofAt blob with
                    | none => .report .success (.failed "cannot retrieve audit proof")
                    | some raw_proof =>
                      match env.verifyRawProof blob raw_proof with
                      | .error e => .report .success (.failed e)
                      | .ok _ => .report .success .success

/-- Sample namespace record used by concrete witnesses: a namespace named
"wa" with a log directory, the given root pointer and the given status. -/
def sampleNamespaceInfo (root : Option String) (status : NamespaceStatus) : NamespaceInfo :=
  { name := "wa"
    log_directory := some "https://logs"
    root := root
    last_verified_epoch := none
    status := status
    reports_uri := "/namespaces/wa/reports"
    audits_uri := "/namespaces/wa/audits"
    signature_version := Ciphersuite.protobufEd25519
    ciphersuite := Ciphersuite.protobufEd25519 }

/-- Sample signature response used by concrete witnesses: epoch 1 with the
one-byte digest 0xaa. -/
def sampleSignatureResponse : SignatureResponse :=
  { version := Ciphersuite.protobufEd25519
    ciphersuite := Ciphersuite.protobufEd25519
    nspace := "wa"
    timestamp := 0
    epoch := ⟨1⟩
    digest := [170]
    signature := List.replicate 64 0
    key_id := none
    serialized_message := none }

/-- C2: for every pair of verification statuses, the short-form audit report
surfaces exactly one of them with the precedence: if the proof status is
Disabled the report shows the signature status; else if the signature
status is Failed the report shows the signature status; otherwise the
report shows the proof status. -/
theorem c2_short_report_precedence (s p : VerificationStatus) :
    format_audit_response_short s p =
      if p = VerificationStatus.disabled then s.display
      else if s.isFailed then s.display
      else p.display := by
  cases s <;> cases p <;> simp [format_audit_response_short, VerificationStatus.isFailed]

/-- C3: `is_first_epoch` returns true when there is no recorded root and the
status is Initialization, false when there is no recorded root and the
status is not Initialization, true when the recorded root equals the
observed root string, false when they differ and the status is not
Initialization, and the error InvalidRoot when they differ and the status
is Initialization. -/
theorem c3_is_first_epoch_cases (info : NamespaceInfo) (s : String) :
    (info.root = none → info.status = NamespaceStatus.initialization →
      info.is_first_epoch s = .ok true) ∧
    (info.root = none → info.status ≠ NamespaceStatus.initialization →
      info.is_first_epoch s = .ok false) ∧
    (info.root = some s → info.is_first_epoch s = .ok true) ∧
    (∀ r, info.root = some r → r ≠ s → info.status ≠ NamespaceStatus.initialization →
      info.is_first_epoch s = .ok false) ∧
    (∀ r, info.root = some r → r ≠ s → info.status = NamespaceStatus.initialization →
      info.is_first_epoch s = .error PlexiError.invalidRoot) := by
  refine ⟨?_, ?_, ?_, ?_, ?_⟩
  · intro hroot hstat
    simp [NamespaceInfo.is_first_epoch, hroot, hstat]
  · intro hroot hstat
    simp [NamespaceInfo.is_first_epoch, hroot, hstat]
  · intro hroot
    simp [NamespaceInfo.is_first_epoch, hroot]
  · intro r hroot hne hstat
    simp [NamespaceInfo.is_first_epoch, hroot, hne, hstat]
  · intro r hroot hne hstat
    simp [NamespaceInfo.is_first_epoch, hroot, hne, hstat]

/-- Witness for C3 at the concrete inputs from the spec examples: an
initializing namespace with recorded root "5/ab12" observing "7/ffff"
fails with InvalidRoot, and an online one returns false. -/
theorem c3_is_first_epoch_cases_witness :
    (sampleNamespaceInfo (some "5/ab12") NamespaceStatus.initialization).is_first_epoch
      "7/ffff" = .error PlexiError.invalidRoot ∧
    (sampleNamespaceInfo (some "5/ab12") NamespaceStatus.online).is_first_epoch
      "7/ffff" = .ok false :=
  ⟨(c3_is_first_epoch_cases _ "7/ffff").2.2.2.2 "5/ab12" rfl (by decide) rfl,
   (c3_is_first_epoch_cases _ "7/ffff").2.2.2.1 "5/ab12" rfl (by decide) (by decide)⟩

/-- C7: constructing a `SignatureMessage` with any ciphersuite outside the
allow-list (every `Unknown(code)`) fails with `BadParameter("version")`,
and with either allow-listed ciphersuite it succeeds and stores the given
fields unchanged. -/
theorem c7_signature_message_allowlist :
    (∀ code nspace timestamp epoch digest,
      SignatureMessage.new (Ciphersuite.unknown code) nspace timestamp epoch digest =
        .error (PlexiError.badParameter "version")) ∧
    (∀ nspace timestamp epoch digest,
      SignatureMessage.new Ciphersuite.protobufEd25519 nspace timestamp epoch digest =
        .ok { ciphersuite := Ciphersuite.protobufEd25519, nspace, timestamp, epoch, digest }) ∧
    (∀ nspace timestamp epoch digest,
      SignatureMessage.new Ciphersuite.bincodeEd25519 nspace timestamp epoch digest =
        .ok { ciphersuite := Ciphersuite.bincodeEd25519, nspace, timestamp, epoch, digest }) := by
  refine ⟨?_, ?_, ?_⟩ <;> intro _ _ _ _ <;>
    simp [SignatureMessage.new, SIGNATURE_VERSIONS]

/-- C8: conversion from a numeric code is total with codes other than 1 and
2 mapping to `Unknown(code)`, conversion to a numeric code inverts it on
the known variants, and the code-to-ciphersuite-to-code round-trip is the
identity on every u32. -/
theorem c8_ciphersuite_roundtrip :
    (Ciphersuite.fromU32 1 = Ciphersuite.protobufEd25519 ∧
      Ciphersuite.fromU32 2 = Ciphersuite.bincodeEd25519) ∧
    (Ciphersuite.toU32 Ciphersuite.protobufEd25519 = 1 ∧
      Ciphersuite.toU32 Ciphersuite.bincodeEd25519 = 2) ∧
    (∀ code : Nat, code ≠ 1 → code ≠ 2 →
      Ciphersuite.fromU32 code = Ciphersuite.unknown code) ∧
    (∀ code : Nat, (Ciphersuite.fromU32 code).toU32 = code) := by
  refine ⟨⟨rfl, rfl⟩, ⟨rfl, rfl⟩, ?_, ?_⟩
  · intro code h1 h2
    unfold Ciphersuite.fromU32
    split
    · exact absurd rfl h1
    · exact absurd rfl h2
    · rfl
  · intro code
    unfold Ciphersuite.fromU32
    split <;> rfl

/-- Witness for C8 at the concrete code 7: it maps to `Unknown 7` and
round-trips to 7. -/
theorem c8_ciphersuite_roundtrip_witness :
    Ciphersuite.fromU32 7 = Ciphersuite.unknown 7 ∧
      (Ciphersuite.fromU32 7).toU32 = 7 :=
  ⟨c8_ciphersuite_roundtrip.2.2.1 7 (by decide) (by decide),
   c8_ciphersuite_roundtrip.2.2.2 7⟩

/-- Sample audit environment used by concrete witnesses: the namespace "wa"
with the given root pointer, no stored predecessor signatures, no proof
blobs, and an oracle that rejects everything. -/
def sampleAuditEnv (root : Option String) : AuditEnv :=
  { namespaceInfo := some (sampleNamespaceInfo root NamespaceStatus.online)
    signatureAt := fun _ => none
    proofAt := fun _ => none
    verifyRawProof := fun _ _ => .error "no oracle" }

/-- C1: in the epoch-chain walk of the audit (after signature verification
succeeded and a root (epochR, digestR) has been parsed), a target epoch E
below epochR yields the proof status Failed for being before the root, a
target at epochR yields Success exactly when the digest equals digestR
byte-for-byte and the root-mismatch Failed status otherwise, and in all
E at-or-below epochR cases the result does not depend on the predecessor
fetch, the proof fetch or the append-only oracle, so the oracle is never
invoked. -/
theorem c1_epoch_root_cases (env : AuditEnv) (nspace : String)
    (signature : SignatureResponse) (info : NamespaceInfo) (d r : String)
    (root_epoch : Epoch) (root_digest : List Nat)
    (h1 : env.namespaceInfo = some info)
    (h2 : info.log_directory = some d)
    (h3 : info.root = some r)
    (h4 : parseRoot r = .ok root_epoch root_digest) :
    (signature.epoch.val < root_epoch.val →
      auditChain env nspace signature =
        .report .success (.failed "epoch cannot be before root")) ∧
    (signature.epoch.val = root_epoch.val → signature.digest = root_digest →
      auditChain env nspace signature = .report .success .success) ∧
    (signature.epoch.val = root_epoch.val → signature.digest ≠ root_digest →
      auditChain env nspace signature =
        .report .success (.failed "epoch is at root height but does not match root digest")) ∧
    (signature.epoch.val ≤ root_epoch.val →
      ∀ sigAt pfAt oracle,
        auditChain
          { env with signatureAt := sigAt, proofAt := pfAt, verifyRawProof := oracle }
          nspace signature = auditChain env nspace signature) := by
  refine ⟨?_, ?_, ?_, ?_⟩
  · intro hlt
    simp [auditChain, h1, h2, h3, h4, hlt]
  · intro heq hdig
    simp [auditChain, h1, h2, h3, h4, heq, hdig]
  · intro heq hdig
    simp [auditChain, h1, h2, h3, h4, heq, hdig]
  · intro hle sigAt pfAt oracle
    rcases lt_or_eq_of_le hle with hlt | heq
    · simp [auditChain, h1, h2, h3, h4, hlt]
    · by_cases hdig : signature.digest = root_digest
      · simp [auditChain, h1, h2, h3, h4, heq, hdig]
      · simp [auditChain, h1, h2, h3, h4, heq, hdig]

/-- Witness for C1 at concrete inputs: with root "1/aa", the epoch-1 response
with digest 0xaa succeeds, a different digest yields the root-mismatch
failure, epoch 0 yields the before-root failure, and swapping in an
always-accepting oracle does not change the base-case outcome. -/
theorem c1_epoch_root_cases_witness :
    auditChain (sampleAuditEnv (some "1/aa")) "wa" sampleSignatureResponse =
      .report .success .success ∧
    auditChain (sampleAuditEnv (some "1/aa")) "wa"
        { sampleSignatureResponse with digest := [171] } =
      .report .success (.failed "epoch is at root height but does not match root digest") ∧
    auditChain (sampleAuditEnv (some "1/aa")) "wa"
        { sampleSignatureResponse with epoch := ⟨0⟩ } =
      .report .success (.failed "epoch cannot be before root") ∧
    auditChain
        { sampleAuditEnv (some "1/aa") with
            signatureAt := (sampleAuditEnv (some "1/aa")).signatureAt
            proofAt := (sampleAuditEnv (some "1/aa")).proofAt
            verifyRawProof := fun _ _ => .ok () }
        "wa" sampleSignatureResponse =
      auditChain (sampleAuditEnv (some "1/aa")) "wa" sampleSignatureResponse := by
  refine ⟨?_, ?_, ?_, ?_⟩
  · exact (c1_epoch_root_cases _ _ _ _ "https://logs" "1/aa" ⟨1⟩ [170]
      rfl rfl rfl (by decide)).2.1 rfl rfl
  · exact (c1_epoch_root_cases _ _ _ _ "https://logs" "1/aa" ⟨1⟩ [170]
      rfl rfl rfl (by decide)).2.2.1 rfl (by decide)
  · exact (c1_epoch_root_cases _ _ _ _ "https://logs" "1/aa" ⟨1⟩ [170]
      rfl rfl rfl (by decide)).1 (by decide)
  · exact (c1_epoch_root_cases _ _ _ _ "https://logs" "1/aa" ⟨1⟩ [170]
      rfl rfl rfl (by decide)).2.2.2 (by decide) _ _ _

/-- Counterexample for C4: the namespace root "x/ab" is malformed (its epoch
part is not numeric), yet the audit does not complete with a Failed proof
status: the epoch parse error propagates as a hard error aborting the
audit. -/
theorem c4_counterexample :
    auditChain (sampleAuditEnv (some "x/ab")) "wa" sampleSignatureResponse =
      .hardError "epoch parse error" := by
  decide

/-- C4 (amended): a root string whose slash-split does not have exactly two
parts is recovered locally into the invalid-root Failed proof status, while
a two-part root whose epoch part does not parse as u64, or whose digest
part is not valid hex, aborts the audit with a hard error. -/
theorem c4_invalid_root_handling (env : AuditEnv) (nspace : String)
    (signature : SignatureResponse) (info : NamespaceInfo) (d r : String)
    (h1 : env.namespaceInfo = some info)
    (h2 : info.log_directory = some d)
    (h3 : info.root = some r) :
    ((splitOnChar '/' r.data).length ≠ 2 →
      auditChain env nspace signature =
        .report .success (.failed ("namespace " ++ nspace ++ " has an invalid root"))) ∧
    (∀ p0 p1, splitOnChar '/' r.data = [p0, p1] → parseU64 ⟨p0⟩ = none →
      auditChain env nspace signature = .hardError "epoch parse error") ∧
    (∀ p0 p1 e, splitOnChar '/' r.data = [p0, p1] → parseU64 ⟨p0⟩ = some e →
      hexDecodeChars p1 = none →
      auditChain env nspace signature = .hardError "root digest hex decode error") := by
  refine ⟨?_, ?_, ?_⟩
  · intro hlen
    have hparse : parseRoot r = .invalidFormat := by
      unfold parseRoot
      rcases hsplit : splitOnChar '/' r.data with _ | ⟨p0, _ | ⟨p1, _ | ⟨p2, rest⟩⟩⟩
      · rfl
      · rfl
      · exact absurd (by rw [hsplit]; rfl) hlen
      · rfl
    simp [auditChain, h1, h2, h3, hparse]
  · intro p0 p1 hsplit hparse
    have hroot : parseRoot r = .hardError "epoch parse error" := by
      unfold parseRoot
      rw [hsplit]
      simp [hparse]
    simp [auditChain, h1, h2, h3, hroot]
  · intro p0 p1 e hsplit hparse hhex
    have hroot : parseRoot r = .hardError "root digest hex decode error" := by
      unfold parseRoot
      rw [hsplit]
      simp [hparse, hhex]
    simp [auditChain, h1, h2, h3, hroot]

/-- Witness for C4 (amended) at concrete roots: "aa" (one part) recovers to
the invalid-root Failed status, "x/ab" (non-numeric epoch) and "5/zz"
(non-hex digest) abort with hard errors. -/
theorem c4_invalid_root_handling_witness :
    auditChain (sampleAuditEnv (some "aa")) "wa" sampleSignatureResponse =
      .report .success (.failed ("namespace " ++ "wa" ++ " has an invalid root")) ∧
    auditChain (sampleAuditEnv (some "x/ab")) "wa" sampleSignatureResponse =
      .hardError "epoch parse error" ∧
    auditChain (sampleAuditEnv (some "5/zz")) "wa" sampleSignatureResponse =
      .hardError "root digest hex decode error" := by
  refine ⟨?_, ?_, ?_⟩
  · exact (c4_invalid_root_handling _ _ _ _ "https://logs" "aa"
      rfl rfl rfl).1 (by decide)
  · exact (c4_invalid_root_handling _ _ _ _ "https://logs" "x/ab"
      rfl rfl rfl).2.1 "x".data "ab".data (by decide) (by decide)
  · exact (c4_invalid_root_handling _ _ _ _ "https://logs" "5/zz"
      rfl rfl rfl).2.2 "5".data "zz".data 5 (by decide) (by decide) (by decide)

/-- Wire record with both ciphersuite fields present and carrying different
values, to exhibit which field the merge rule prefers. -/
def tempBothFields : TempSignatureResponse :=
  { version := some Ciphersuite.bincodeEd25519
    ciphersuite := some Ciphersuite.protobufEd25519
    nspace := "n"
    timestamp := 2
    epoch := ⟨3⟩
    digest := [4]
    signature := [5]
    key_id := some 6
    serialized_message := none }

/-- Counterexample for C5: when both wire fields are present the merge rule
resolves to the legacy `version` field's value (bincodeEd25519), not the
current `ciphersuite` field's value (protobufEd25519) as the claim's
prefer-the-new-field rule would give; and re-serializing emits the
ciphersuite value under the `version` field name as well, not only under
the current field name. -/
theorem c5_counterexample :
    (deserialize_signature_response tempBothFields).map (fun resp => resp.ciphersuite) =
      .ok Ciphersuite.bincodeEd25519 ∧
    (SignatureResponse.serialize sampleSignatureResponse).version =
      some Ciphersuite.protobufEd25519 :=
  ⟨rfl, rfl⟩

/-- C5 (amended): deserializing accepts the legacy `version` field and the
current `ciphersuite` field interchangeably, resolving them by a single
merge rule that prefers the legacy `version` field, falls back to
`ciphersuite`, and errors if neither is present; re-serializing emits the
single resolved ciphersuite value under both field names. -/
theorem c5_dual_field_merge (temp : TempSignatureResponse) (resp : SignatureResponse) :
    (∀ v, temp.version = some v →
      deserialize_signature_response temp = buildSignatureResponse temp v) ∧
    (temp.version = none → ∀ c, temp.ciphersuite = some c →
      deserialize_signature_response temp = buildSignatureResponse temp c) ∧
    (temp.version = none → temp.ciphersuite = none →
      deserialize_signature_response temp =
        .error "Either version or ciphersuite must be provided") ∧
    ((SignatureResponse.serialize resp).version = some resp.ciphersuite ∧
      (SignatureResponse.serialize resp).ciphersuite = some resp.ciphersuite) := by
  refine ⟨?_, ?_, ?_, rfl, rfl⟩
  · intro v hv
    simp [deserialize_signature_response, hv]
  · intro hv c hc
    simp [deserialize_signature_response, hv, hc]
  · intro hv hc
    simp [deserialize_signature_response, hv, hc]

/-- Witness for C5 (amended) at concrete inputs: with both fields present the
legacy `version` value wins, and serialization emits the `version` field. -/
theorem c5_dual_field_merge_witness :
    deserialize_signature_response tempBothFields =
      buildSignatureResponse tempBothFields Ciphersuite.bincodeEd25519 ∧
    (SignatureResponse.serialize sampleSignatureResponse).version =
      some sampleSignatureResponse.ciphersuite :=
  ⟨(c5_dual_field_merge tempBothFields sampleSignatureResponse).1 _ rfl,
   (c5_dual_field_merge tempBothFields sampleSignatureResponse).2.2.2.1⟩

/-- Crypto backend that accepts every key and every signature, standing in
for the fact that real ed25519 point decompression succeeds on valid
32-byte encodings (for instance the all-zero compressed point). -/
def permissiveBackend : Ed25519Backend :=
  { parseVerifyingKey := fun _ => true
    verifyStrict := fun _ _ _ => true }

/-- C6: refuted on the code — the signature codec can panic on
malformed-length input. For a SignatureResponse whose stored signature
vector has length 1, `verify` with a well-formed 32-byte verifying key
reaches the `signature()` accessor, whose `.expect` panics instead of
returning a typed error; a wrong-length verifying key, by contrast, does
produce a typed error. -/
theorem c6_verify_panics_on_short_signature :
    SignatureResponse.verify permissiveBackend true
        { sampleSignatureResponse with signature := [0] } (List.replicate 32 0) =
      .panicked "signature bytes have a known length" ∧
    SignatureResponse.verify permissiveBackend true
        { sampleSignatureResponse with signature := [0] } [0, 1] =
      .err "verifying_key should have length 32" := by
  decide

/-- Round-trip of one hex digit: encoding a value below 16 and reading it
back yields the value. -/
theorem hexDigitVal_hexDigitChar : ∀ n < 16, hexDigitVal (hexDigitChar n) = some n := by
  decide

/-- Round-trip of `hex::decode` after `hex::encode` on any byte vector. -/
theorem hexDecodeChars_hexEncode (bs : List Nat) :
    (∀ b ∈ bs, b < 256) → hexDecodeChars (bs.map hexEncodeByte).flatten = some bs := by
  induction bs with
  | nil => intro _; rfl
  | cons b rest ih =>
    intro h
    have hb : b < 256 := h b (List.mem_cons_self b rest)
    have h1 : hexDigitVal (hexDigitChar (b / 16 % 16)) = some (b / 16 % 16) :=
      hexDigitVal_hexDigitChar _ (Nat.mod_lt _ (by norm_num))
    have h2 : hexDigitVal (hexDigitChar (b % 16)) = some (b % 16) :=
      hexDigitVal_hexDigitChar _ (Nat.mod_lt _ (by norm_num))
    have hrest := ih (fun x hx => h x (List.mem_cons_of_mem b hx))
    have hbval : b / 16 % 16 * 16 + b % 16 = b := by omega
    simp [hexEncodeByte, hexDecodeChars, h1, h2, hbval, hrest]

/-- Round-trip of `hex::decode` after `hex::encode` on a string. -/
theorem hexDecode_hexEncode (bs : List Nat) (h : ∀ b ∈ bs, b < 256) :
    hexDecode (hexEncode bs) = some bs :=
  hexDecodeChars_hexEncode bs h

/-- Helper: a successful `buildSignatureResponse` stores the resolved suite
value into both the `version` and the `ciphersuite` fields. -/
theorem buildSignatureResponse_ok (temp : TempSignatureResponse) (v : Ciphersuite)
    (resp : SignatureResponse) (h : buildSignatureResponse temp v = .ok resp) :
    resp.version = v ∧ resp.ciphersuite = v := by
  unfold buildSignatureResponse at h
  split at h
  · injection h with h
    rw [← h]
    exact ⟨rfl, rfl⟩
  · split at h
    · simp at h
    · injection h with h
      rw [← h]
      exact ⟨rfl, rfl⟩

/-- C9: every SignatureResponse produced by deserialization has its version
field equal to its ciphersuite field (whichever wire field was present is
copied into both), serialization writes the single ciphersuite value under
both field names, and the invariant is preserved across a
serialize/deserialize round-trip. -/
theorem c9_version_ciphersuite_invariant :
    (∀ temp resp, deserialize_signature_response temp = .ok resp →
      resp.version = resp.ciphersuite) ∧
    (∀ resp : SignatureResponse,
      (SignatureResponse.serialize resp).version = some resp.ciphersuite ∧
      (SignatureResponse.serialize resp).ciphersuite = some resp.ciphersuite) ∧
    (∀ resp : SignatureResponse,
      (∀ b ∈ resp.serialized_message.getD [], b < 256) →
      deserialize_signature_response (SignatureResponse.serialize resp) =
        .ok { resp with version := resp.ciphersuite }) := by
  refine ⟨?_, fun resp => ⟨rfl, rfl⟩, ?_⟩
  · intro temp resp h
    unfold deserialize_signature_response at h
    split at h
    · exact ((buildSignatureResponse_ok _ _ _ h).1).trans
        ((buildSignatureResponse_ok _ _ _ h).2).symm
    · exact ((buildSignatureResponse_ok _ _ _ h).1).trans
        ((buildSignatureResponse_ok _ _ _ h).2).symm
    · simp at h
  · intro resp h
    have hstep : deserialize_signature_response (SignatureResponse.serialize resp) =
        buildSignatureResponse (SignatureResponse.serialize resp) resp.ciphersuite := rfl
    rw [hstep]
    unfold buildSignatureResponse SignatureResponse.serialize
    rcases hsm : resp.serialized_message with _ | sm
    · simp [hsm]
    · have hbytes : ∀ b ∈ sm, b < 256 := by
        intro b hb
        have := h b
        rw [hsm] at this
        exact this hb
      simp [hsm, hexDecode_hexEncode sm hbytes]

/-- Witness for C9 at a concrete response carrying a serialized message:
the serialize/deserialize round-trip succeeds and restores the invariant,
and serialization emits the suite under the `version` name too. -/
theorem c9_version_ciphersuite_invariant_witness :
    deserialize_signature_response
        (SignatureResponse.serialize
          { sampleSignatureResponse with serialized_message := some [7] }) =
      .ok { { sampleSignatureResponse with serialized_message := some [7] } with
              version :=
                { sampleSignatureResponse with serialized_message := some [7] }.ciphersuite } ∧
    (SignatureResponse.serialize sampleSignatureResponse).version =
      some sampleSignatureResponse.ciphersuite :=
  ⟨c9_version_ciphersuite_invariant.2.2 _ (by decide),
   (c9_version_ciphersuite_invariant.2.1 _).1⟩

/-- C10: epoch subtraction is unchecked u64 arithmetic — `Epoch(0) - 1`
underflows (no defined result) and `Epoch(a) - b` is defined exactly when
b is at most a — and the chain walk's predecessor computation E - 1 never
hits the underflow, because it is reached only when E exceeds the root
epoch. -/
theorem c10_epoch_sub_unchecked :
    (Epoch.sub ⟨0⟩ 1 = none) ∧
    (∀ a b : Nat, (Epoch.sub ⟨a⟩ b).isSome ↔ b ≤ a) ∧
    (∀ env nspace signature, auditChain env nspace signature ≠
      .panicked "attempt to subtract with overflow") := by
  refine ⟨rfl, ?_, ?_⟩
  · intro a b
    simp only [Epoch.sub, u64Sub]
    split <;> simp_all
  · intro env nspace signature h
    unfold auditChain at h
    repeat' split at h
    all_goals try simp_all [Epoch.sub, u64Sub]
    all_goals repeat' split at h
    all_goals simp_all

/-- Witness for C10 at concrete inputs: the underflow at epoch 0, a defined
subtraction, and a concrete audit run that does not hit the underflow. -/
theorem c10_epoch_sub_unchecked_witness :
    Epoch.sub ⟨0⟩ 1 = none ∧
    (Epoch.sub ⟨5⟩ 3).isSome = true ∧
    auditChain (sampleAuditEnv (some "1/aa")) "wa" sampleSignatureResponse ≠
      .panicked "attempt to subtract with overflow" :=
  ⟨c10_epoch_sub_unchecked.1,
   (c10_epoch_sub_unchecked.2.1 5 3).mpr (by decide),
   c10_epoch_sub_unchecked.2.2 _ _ _⟩

/-- Witness for C2 at the concrete status pairs from the spec examples. -/
theorem c2_short_report_precedence_witness :
    format_audit_response_short VerificationStatus.success VerificationStatus.disabled =
      "success" ∧
    format_audit_response_short (VerificationStatus.failed "x") VerificationStatus.success =
      "failed - x" ∧
    format_audit_response_short VerificationStatus.success (VerificationStatus.failed "y") =
      "failed - y" :=
  ⟨(c2_short_report_precedence VerificationStatus.success VerificationStatus.disabled).trans
      (by decide),
   (c2_short_report_precedence (VerificationStatus.failed "x") VerificationStatus.success).trans
      (by decide),
   (c2_short_report_precedence VerificationStatus.success (VerificationStatus.failed "y")).trans
      (by decide)⟩

/-- Witness for C7 at concrete inputs: the unknown code 3 is rejected and a
protobuf message stores its fields unchanged. -/
theorem c7_signature_message_allowlist_witness :
    SignatureMessage.new (Ciphersuite.unknown 3) "wa" 0 ⟨1⟩ [170] =
      .error (PlexiError.badParameter "version") ∧
    SignatureMessage.new Ciphersuite.protobufEd25519 "wa" 0 ⟨1⟩ [170] =
      .ok { ciphersuite := Ciphersuite.protobufEd25519, nspace := "wa",
            timestamp := 0, epoch := ⟨1⟩, digest := [170] } :=
  ⟨c7_signature_message_allowlist.1 3 "wa" 0 ⟨1⟩ [170],
   c7_signature_message_allowlist.2.1 "wa" 0 ⟨1⟩ [170]⟩
